import Mathlib

/-!
Verification of the homework-status bot (`homework.py`) against its
natural-language specification.  The Python module is shallowly embedded:
JSON-like Python values become the inductive type `JValue`, exceptions
become an explicit `PyError` sum threaded through `Except`, the network
and the Telegram collaborator become explicit inputs (`FetchOutcome`,
a delivery outcome), and one pass of the infinite `while True` body
becomes the state-transition function `mainIter`.
-/

namespace HomeworkBot

/-- JSON-like Python values as they occur in the bot: `None`, booleans,
integers, strings, lists and string-keyed dicts (a decoded-JSON dict has
string keys; duplicates cannot survive decoding, so an association list
with its first match is a faithful lookup). -/
inductive JValue where
  | jnull
  | jbool (b : Bool)
  | jnum (n : Int)
  | jstr (s : String)
  | jlist (xs : List JValue)
  | jdict (kvs : List (String × JValue))
  deriving Repr

/-- Python exceptions raised by the module, by class, carrying the
constructor argument.  `httpRequestError` — Modelled from the spec: the
repository's `exceptions` module (class `HTTPRequestError`, imported by
`homework.py` but not under src/) is modelled as a plain `Exception`
subclass carrying its message, the spec's "distinct condition carrying"
the request context. -/
inductive PyError where
  | runtimeError (msg : String)
  | httpRequestError (msg : String)
  | typeError (msg : String)
  | keyError (msg : String)
  | valueError (msg : String)
  | attributeError (msg : String)
  deriving Repr, DecidableEq

/-- Python `str(exception)`: the message, except `KeyError`, whose
`str` is the `repr` of its argument, i.e. the message in single quotes. -/
def pyErrStr : PyError → String
  | .runtimeError m => m
  | .httpRequestError m => m
  | .typeError m => m
  | .keyError m => "\x27" ++ m ++ "\x27"
  | .valueError m => m
  | .attributeError m => m

/-- Python truthiness of a value (`if x:`). -/
def pyTruthy : JValue → Bool
  | .jnull => false
  | .jbool b => b
  | .jnum n => n != 0
  | .jstr s => !s.isEmpty
  | .jlist xs => !xs.isEmpty
  | .jdict kvs => !kvs.isEmpty

/-- Python `type(x)` rendered as in an f-string / `format`, e.g.
`<class \x27dict\x27>`. -/
def pyTypeName : JValue → String
  | .jnull => "NoneType"
  | .jbool _ => "bool"
  | .jnum _ => "int"
  | .jstr _ => "str"
  | .jlist _ => "list"
  | .jdict _ => "dict"

def pyType (v : JValue) : String :=
  "<class \x27" ++ pyTypeName v ++ "\x27>"

mutual

/-- Python `repr` of a value (used by `str` inside containers). -/
def pyRepr : JValue → String
  | .jnull => "None"
  | .jbool b => cond b "True" "False"
  | .jnum n => toString n
  | .jstr s => "\x27" ++ s ++ "\x27"
  | .jlist xs => "[" ++ pyReprItems xs ++ "]"
  | .jdict kvs => "\x7b" ++ pyReprPairs kvs ++ "\x7d"

def pyReprItems : List JValue → String
  | [] => ""
  | [x] => pyRepr x
  | x :: y :: xs => pyRepr x ++ ", " ++ pyReprItems (y :: xs)

def pyReprPairs : List (String × JValue) → String
  | [] => ""
  | [kv] => "\x27" ++ kv.1 ++ "\x27: " ++ pyRepr kv.2
  | kv :: kv2 :: kvs =>
      "\x27" ++ kv.1 ++ "\x27: " ++ pyRepr kv.2 ++ ", " ++ pyReprPairs (kv2 :: kvs)

end

/-- Python `str(x)`, as applied by `str.format` to a substituted value:
identity on strings, `repr`-like rendering otherwise. -/
def pyStr : JValue → String
  | .jstr s => s
  | v => pyRepr v

/-- Python `str` of a list of strings, e.g. `[\x27a\x27, \x27b\x27]`
(how `format` renders the `missing_tokens` / `missing_keys` lists). -/
def pyStrListStr (xs : List String) : String :=
  "[" ++ String.intercalate ", " (xs.map (fun s => "\x27" ++ s ++ "\x27")) ++ "]"

/-- Lookup in a string-keyed association list (Python dict subscript,
first match). -/
def alookup {α : Type} : List (String × α) → String → Option α
  | [], _ => none
  | kv :: kvs, k => if kv.1 = k then some kv.2 else alookup kvs k

/-- Python `key in d` for a string-keyed dict. -/
def dictHas (kvs : List (String × JValue)) (k : String) : Bool :=
  (alookup kvs k).isSome

/-- Python substring test `needle in hay` for strings. -/
def strContains (hay needle : String) : Bool :=
  needle.isEmpty || (hay.splitOn needle).length ≥ 2

/-- Python membership `s in v` for a string needle: key membership in a
dict, element equality in a list (a `str` equals no non-`str`),
substring test in a string; `TypeError` on non-iterables. -/
def pyInStr (s : String) : JValue → Except PyError Bool
  | .jdict kvs => .ok (dictHas kvs s)
  | .jlist xs => .ok (xs.any (fun x => match x with
      | .jstr t => t = s
      | _ => false))
  | .jstr t => .ok (strContains t s)
  | v => .error (.typeError
      ("argument of type \x27" ++ pyTypeName v ++ "\x27 is not iterable"))

/-- Python subscript `v[k]` with a string key: dict lookup
(`KeyError` when absent), `TypeError` otherwise. -/
def pyGetItemStr (v : JValue) (k : String) : Except PyError JValue :=
  match v with
  | .jdict kvs =>
      match alookup kvs k with
      | some x => .ok x
      | none => .error (.keyError k)
  | .jstr _ => .error (.typeError "string indices must be integers")
  | .jlist _ =>
      .error (.typeError "list indices must be integers or slices, not str")
  | other => .error (.typeError
      ("\x27" ++ pyTypeName other ++ "\x27 object is not subscriptable"))

/-- Python `d.get(k, default)` (only reached on dicts in this program;
a non-dict would raise `AttributeError`). -/
def pyDictGet (v : JValue) (k : String) (default : JValue) :
    Except PyError JValue :=
  match v with
  | .jdict kvs => .ok ((alookup kvs k).getD default)
  | other => .error (.attributeError
      ("\x27" ++ pyTypeName other ++ "\x27 object has no attribute \x27get\x27"))

/-! ### Module-level message templates (each `.format` call becomes a
function; Python's implicit adjacent-string concatenation is reproduced
verbatim, including its missing spaces). -/

def MISSING_ENV_VARS (missing_tokens : String) : String :=
  "Отсутствие необходимых переменных окружения:" ++ missing_tokens

def MESSAGE_SENT_SUCCESS (message : String) : String :=
  "Сообщение успешно отправлено: " ++ message

def MESSAGE_SEND_ERROR (error message : String) : String :=
  "Произошёл сбой: " ++ error ++ ". При отправке сообщения:" ++ message

def REQUEST_ERROR (req_error url headers params : String) : String :=
  "Ошибка выполнения запроса " ++ req_error ++ " URL: " ++ url ++
    ",Headers: " ++ headers ++ ", Params: " ++ params

def RESPONSE_STATUS_ERROR (status_code url headers params : String) : String :=
  "Неверный статус ответа: " ++ status_code ++ ". URL: " ++ url ++
    ",Headers: " ++ headers ++ ", Params: " ++ params

def API_RESPONSE_ERROR (error_message error_key : String) : String :=
  "Ошибка в ответе API: " ++ error_message ++ ", ключ:" ++ error_key

def INVALID_API_RESPONSE_TYPE (response_type : String) : String :=
  "Ответ API не является словарем, получен тип:" ++ response_type

def MISSING_HOMEWORKS_KEY : String :=
  "Отсутствие ключа \"homeworks\" в ответе API"

def INVALID_HOMEWORKS_TYPE (homeworks_type : String) : String :=
  "Тип данных homeworks в ответе API не являетсясписком, получен тип: "
    ++ homeworks_type

def MISSING_HOMEWORK_KEYS (missing_keys : String) : String :=
  "Отсутствие ожидаемых ключей в ответе API:" ++ missing_keys

def UNKNOWN_HOMEWORK_STATUS (status : String) : String :=
  "Неизвестный статус домашней работы: " ++ status

def STATUS_CHANGED_MESSAGE (homework_name verdict : String) : String :=
  "Изменился статус проверки работы \"" ++ homework_name ++ "\"." ++ verdict

def NO_STATUS_CHANGE : String :=
  "Отсутствие изменения статуса: список домашних работ пуст"

def PROGRAM_FAILURE (error : String) : String :=
  "Сбой в работе программы: " ++ error

/-! ### Module-level constants and environment -/

def RETRY_PERIOD : Nat := 600

def ENDPOINT : String :=
  "https://practicum.yandex.ru/api/user_api/homework_statuses/"

/-- The three environment secrets as read by `os.getenv` (absent → `None`). -/
structure Env where
  PRACTICUM_TOKEN : Option String
  TELEGRAM_TOKEN : Option String
  TELEGRAM_CHAT_ID : Option String

/-- f-string interpolation of an `os.getenv` result (`None` → `"None"`). -/
def pyOptStr : Option String → String
  | none => "None"
  | some s => s

/-- `HEADERS = {'Authorization': f'OAuth {PRACTICUM_TOKEN}'}`. -/
def HEADERS (practicum_token : Option String) : JValue :=
  .jdict [("Authorization", .jstr ("OAuth " ++ pyOptStr practicum_token))]

/-- `HOMEWORK_VERDICTS` — the fixed three-entry verdict table. -/
def HOMEWORK_VERDICTS : List (String × String) :=
  [("approved", "Работа проверена: ревьюеру всё понравилось. Ура!"),
   ("reviewing", "Работа взята на проверку ревьюером."),
   ("rejected", "Работа проверена: у ревьюера есть замечания.")]

/-- `TOKEN_NAMES` is a Python `set`; its iteration order is not
specified, so the model fixes one order and all claims about it are
stated order-independently. -/
def TOKEN_NAMES : List String :=
  ["PRACTICUM_TOKEN", "TELEGRAM_TOKEN", "TELEGRAM_CHAT_ID"]

/-- `globals().get(name)` for the three secret names. -/
def envGet (env : Env) : String → Option String
  | "PRACTICUM_TOKEN" => env.PRACTICUM_TOKEN
  | "TELEGRAM_TOKEN" => env.TELEGRAM_TOKEN
  | "TELEGRAM_CHAT_ID" => env.TELEGRAM_CHAT_ID
  | _ => none

/-- Python truthiness of `globals().get(name)`: present and non-empty. -/
def tokenPresent (v : Option String) : Bool :=
  match v with
  | none => false
  | some s => !s.isEmpty

/-- `[name for name in TOKEN_NAMES if not globals().get(name)]`. -/
def missing_tokens (env : Env) : List String :=
  TOKEN_NAMES.filter (fun name => !tokenPresent (envGet env name))

/-- `check_tokens()`: `False` (after a critical log) when any secret is
missing or empty, `True` otherwise. -/
def check_tokens (env : Env) : Bool :=
  (missing_tokens env).isEmpty

/-- The critical diagnostic emitted by `check_tokens` when it fails. -/
def check_tokens_report (env : Env) : Option String :=
  if (missing_tokens env).isEmpty then none
  else some (MISSING_ENV_VARS (pyStrListStr (missing_tokens env)))

/-! ### send_message -/

/-- The observable effect of one `send_message` call: its Python return
value, whether the collaborator actually delivered, and the log line. -/
structure SendEffect where
  ret : JValue
  delivered : Bool
  log : String
  deriving Repr

/-- `send_message(bot, message)`.  `delivery` is the collaborator's
behaviour: `none` means `bot.send_message` succeeded, `some e` means it
raised an exception whose `str` is `e` (the `except` catches it and
logs).  Both paths fall off the end of the function, so the Python
return value is `None` in every case. -/
def send_message (delivery : Option String) (message : String) : SendEffect :=
  match delivery with
  | none => { ret := .jnull, delivered := true,
              log := MESSAGE_SENT_SUCCESS message }
  | some error => { ret := .jnull, delivered := false,
                    log := MESSAGE_SEND_ERROR error message }

/-! ### get_api_answer -/

/-- What the outside world does with the single `requests.get`:
either the transport raises (`str` of the `RequestException` given), or
an HTTP response arrives with a status code and a decoded JSON body. -/
inductive FetchOutcome where
  | transportError (req_error : String)
  | httpResponse (status_code : Nat) (body : JValue)
  deriving Repr

/-- `get_api_answer(timestamp)` as a function of the world's
`FetchOutcome`: transport failure → `RuntimeError` carrying the cause,
URL, headers and params; non-200 status → `HTTPRequestError` carrying
status and request context; a decoded body with a `code` or `error`
field → `HTTPRequestError` carrying the payload (key `error` preferred);
otherwise the decoded body is returned. -/
def get_api_answer (practicum_token : Option String) (timestamp : JValue)
    (outcome : FetchOutcome) : Except PyError JValue :=
  let params : JValue := .jdict [("from_date", timestamp)]
  match outcome with
  | .transportError req_error =>
      .error (.runtimeError (REQUEST_ERROR req_error ENDPOINT
        (pyStr (HEADERS practicum_token)) (pyStr params)))
  | .httpResponse status_code response_json =>
      if status_code ≠ 200 then
        .error (.httpRequestError (RESPONSE_STATUS_ERROR
          (toString status_code) ENDPOINT
          (pyStr (HEADERS practicum_token)) (pyStr params)))
      else do
        let hasCode ← pyInStr "code" response_json
        let hasEither ← if hasCode then pure true
                        else pyInStr "error" response_json
        if hasEither then do
          let hasError ← pyInStr "error" response_json
          let error_key := if hasError then "error" else "code"
          let error_message ← pyGetItemStr response_json error_key
          Except.error (.httpRequestError (API_RESPONSE_ERROR
            (pyStr error_message) error_key))
        else
          pure response_json

/-! ### check_response -/

/-- `check_response(response)`: `TypeError` naming the actual type when
the response is not a dict, `KeyError` when `homeworks` is absent,
`TypeError` naming the actual type when its value is not a list, and the
homeworks list itself otherwise. -/
def check_response (response : JValue) : Except PyError (List JValue) :=
  match response with
  | .jdict kvs =>
      match alookup kvs "homeworks" with
      | none => .error (.keyError MISSING_HOMEWORKS_KEY)
      | some homeworks =>
          match homeworks with
          | .jlist xs => .ok xs
          | other =>
              .error (.typeError (INVALID_HOMEWORKS_TYPE (pyType other)))
  | other =>
      .error (.typeError (INVALID_API_RESPONSE_TYPE (pyType other)))

/-! ### parse_status -/

def required_keys : List String := ["homework_name", "status"]

/-- `[key for key in required_keys if key not in homework]`, threading
the `TypeError` a non-container `homework` would raise. -/
def missingKeysIn : List String → JValue → Except PyError (List String)
  | [], _ => .ok []
  | k :: ks, hw => do
      let present ← pyInStr k hw
      let rest ← missingKeysIn ks hw
      pure (if present then rest else k :: rest)

/-- `status in HOMEWORK_VERDICTS`: key membership with an arbitrary
needle — unhashable needles raise, a non-string needle equals no string
key. -/
def statusInVerdicts (status : JValue) : Except PyError Bool :=
  match status with
  | .jstr s => .ok ((alookup HOMEWORK_VERDICTS s).isSome)
  | .jlist _ => .error (.typeError "unhashable type: \x27list\x27")
  | .jdict _ => .error (.typeError "unhashable type: \x27dict\x27")
  | _ => .ok false

/-- `parse_status(homework)`: `KeyError` enumerating the missing
required keys when any is absent; `ValueError` naming the status value
when it is not a `HOMEWORK_VERDICTS` key; otherwise the
`STATUS_CHANGED_MESSAGE` text built from the name and the verdict. -/
def parse_status (homework : JValue) : Except PyError String := do
  let missing_keys ← missingKeysIn required_keys homework
  if !missing_keys.isEmpty then
    Except.error (.keyError (MISSING_HOMEWORK_KEYS (pyStrListStr missing_keys)))
  else do
    let homework_name ← pyGetItemStr homework "homework_name"
    let status ← pyGetItemStr homework "status"
    let recognized ← statusInVerdicts status
    if !recognized then
      Except.error (.valueError (UNKNOWN_HOMEWORK_STATUS (pyStr status)))
    else
      match status with
      | .jstr s =>
          match alookup HOMEWORK_VERDICTS s with
          | some verdict =>
              pure (STATUS_CHANGED_MESSAGE (pyStr homework_name) verdict)
          | none => Except.error (.keyError s)
      | other => Except.error (.keyError (pyStr other))

/-! ### main -/

/-- The mutable state of the `while True` loop: the poll cursor
`timestamp` (an `int` initially, but `response.get('current_date', ...)`
can in principle store any value, so it is a `JValue`) and
`last_error_message` (`None` initially). -/
structure LoopState where
  timestamp : JValue
  last_error_message : Option String
  deriving Repr

/-- The world's behaviour during one loop iteration: what the single
`requests.get` does, and what the collaborator does for the (at most
one) `bot.send_message` call (`none` = delivers, `some e` = raises with
text `e`). -/
structure IterInput where
  fetch : FetchOutcome
  delivery : Option String
  deriving Repr

/-- Observable outcome of one iteration: the next loop state, the
messages handed to `send_message`, and those actually delivered. -/
structure IterResult where
  state : LoopState
  sent : List String
  delivered : List String
  deriving Repr

/-- The branch after a successful fetch+validate with non-empty
`homeworks`: parse the FIRST record, send, and advance the cursor only
if `send_message(...)` is truthy. -/
def notifyStep (st : LoopState) (delivery : Option String)
    (response : JValue) (hw : JValue) : Except PyError IterResult := do
  let message ← parse_status hw
  let eff := send_message delivery message
  let dlv := if eff.delivered then [message] else []
  if pyTruthy eff.ret then do
    let newTs ← pyDictGet response "current_date" st.timestamp
    pure { state := { st with timestamp := newTs },
           sent := [message], delivered := dlv }
  else
    pure { state := st, sent := [message], delivered := dlv }

/-- The `except Exception` handler: format `PROGRAM_FAILURE`, log it,
and if it differs from `last_error_message`, send it and record it only
if `send_message(...)` is truthy. -/
def errorStep (st : LoopState) (delivery : Option String)
    (error : PyError) : IterResult :=
  let message := PROGRAM_FAILURE (pyErrStr error)
  if some message ≠ st.last_error_message then
    let eff := send_message delivery message
    let dlv := if eff.delivered then [message] else []
    if pyTruthy eff.ret then
      { state := { st with last_error_message := some message },
        sent := [message], delivered := dlv }
    else
      { state := st, sent := [message], delivered := dlv }
  else
    { state := st, sent := [], delivered := [] }

/-- The `try` block of one pass of the `while True` body of `main`. -/
def iterTry (env : Env) (st : LoopState) (inp : IterInput) :
    Except PyError IterResult := do
  let response ← get_api_answer env.PRACTICUM_TOKEN st.timestamp inp.fetch
  let homeworks ← check_response response
  match homeworks with
  | hw :: _ => notifyStep st inp.delivery response hw
  | [] => pure { state := st, sent := [], delivered := [] }

/-- One pass of the `while True` body of `main`: the `try` block, with
any exception routed to the `except Exception` handler. -/
def mainIter (env : Env) (st : LoopState) (inp : IterInput) : IterResult :=
  match iterTry env st inp with
  | .ok r => r
  | .error e => errorStep st inp.delivery e

/-- Several consecutive iterations; returns the final state and all
delivered messages in order. -/
def mainRun (env : Env) (st : LoopState) :
    List IterInput → LoopState × List String
  | [] => (st, [])
  | i :: is =>
      let r := mainIter env st i
      let (st2, rest) := mainRun env r.state is
      (st2, r.delivered ++ rest)

/-- Startup of `main()`: when `check_tokens()` is false `main` returns
at once (`none`); otherwise the loop is entered with the cursor at
`int(time.time())` and no last error. -/
def main_start (env : Env) (now : Int) : Option LoopState :=
  if !check_tokens env then none
  else some { timestamp := .jnum now, last_error_message := none }

/-! ### Concrete fixtures used by the theorems -/

/-- An environment with all three secrets present. -/
def envOk : Env :=
  { PRACTICUM_TOKEN := some "P", TELEGRAM_TOKEN := some "T",
    TELEGRAM_CHAT_ID := some "C" }

/-- Loop state at startup (cursor 0, no last error). -/
def st0 : LoopState := { timestamp := .jnum 0, last_error_message := none }

/-- The record `{'homework_name': 'X', 'status': 'approved'}`. -/
def hwX : JValue :=
  .jdict [("homework_name", .jstr "X"), ("status", .jstr "approved")]

/-- The response `{'homeworks': [hwX], 'current_date': 123}`. -/
def respX : JValue :=
  .jdict [("homeworks", .jlist [hwX]), ("current_date", .jnum 123)]

/-- An iteration in which the fetch succeeds with `respX` and the
collaborator delivers. -/
def inpX : IterInput := { fetch := .httpResponse 200 respX, delivery := none }

/-- The notification text the code actually produces for `hwX`
(no space after the period — the template's two string literals are
concatenated without one). -/
def msgX : String :=
  "Изменился статус проверки работы \"X\".Работа проверена: ревьюеру всё понравилось. Ура!"

/-- The text the spec quotes for `hwX`, with a space after the period. -/
def spacedMsgX : String :=
  "Изменился статус проверки работы \"X\". Работа проверена: ревьюеру всё понравилось. Ура!"

/-- An iteration whose fetch raises a transport error and whose
collaborator would deliver. -/
def errInp : IterInput :=
  { fetch := .transportError "boom", delivery := none }

/-- The formatted failure text for `errInp` under `envOk` at cursor 0. -/
def failBoom : String :=
  PROGRAM_FAILURE (REQUEST_ERROR "boom" ENDPOINT (pyStr (HEADERS (some "P")))
    (pyStr (.jdict [("from_date", .jnum 0)])))

/-- A well-shaped response whose homeworks list is `hw :: rest` and
whose `current_date` is `d`. -/
def respTail (hw : JValue) (rest : List JValue) (d : JValue) : JValue :=
  .jdict [("homeworks", .jlist (hw :: rest)), ("current_date", d)]

/-- An iteration input fetching `respTail hw rest d` with status 200. -/
def tailInp (delivery : Option String) (hw : JValue) (rest : List JValue)
    (d : JValue) : IterInput :=
  { fetch := .httpResponse 200 (respTail hw rest d), delivery := delivery }

/-! ### Small general-purpose lemmas -/

theorem exceptBind_ok {α β : Type} (a : α) (f : α → Except PyError β) :
    (Except.ok a >>= f) = f a := rfl

theorem exceptBind_err {α β : Type} (e : PyError) (f : α → Except PyError β) :
    (Except.error e >>= f : Except PyError β) = Except.error e := rfl

theorem isEmpty_eq_nil {α : Type} (l : List α) : l.isEmpty = true ↔ l = [] := by
  cases l <;> simp

theorem send_message_ret (delivery : Option String) (message : String) :
    (send_message delivery message).ret = .jnull := by
  cases delivery <;> rfl

/-! ### Claims -/

/-- C1 (code bug): with all secrets present, cursor 0, a 200 response
whose `homeworks` holds one record and whose `current_date` is 123, and
a collaborator that delivers, the iteration does produce and deliver the
notification — yet the cursor stays at 0 instead of advancing to 123,
because `send_message` returns `None` and `main` gates the advance on
its truthiness. -/
theorem C1_cursor_never_advances :
    (mainIter envOk st0 inpX).delivered = [msgX]
    ∧ (mainIter envOk st0 inpX).state.timestamp = .jnum 0 := ⟨rfl, rfl⟩

/-- C2 (code bug): `send_message` swallows the collaborator's outcome
but reports nothing: even when delivery succeeds it returns `None`,
which is falsy — never the truthy boolean the claim (and `main`'s
`if send_message(...)`) expects. -/
theorem C2_send_message_returns_none :
    (send_message none "hello").delivered = true
    ∧ (send_message none "hello").ret = .jnull
    ∧ pyTruthy (send_message none "hello").ret = false := ⟨rfl, rfl, rfl⟩

/-- C3 (code bug): two consecutive iterations failing with the identical
formatted error text, delivery succeeding, deliver the failure
notification TWICE, and `last_error_message` is never recorded —
because `send_message` returns `None`, the dedup bookkeeping
`last_error_message = message` is unreachable. -/
theorem C3_duplicate_error_sent_twice :
    (mainRun envOk st0 [errInp, errInp]).2 = [failBoom, failBoom]
    ∧ (mainRun envOk st0 [errInp, errInp]).1.last_error_message = none :=
  ⟨rfl, rfl⟩

/-- C4 counterexample: `parse_status` on
`{'homework_name': 'X', 'status': 'approved'}` does NOT return the text
the claim quotes (which has a space after the period). -/
theorem C4_counterexample : parse_status hwX ≠ Except.ok spacedMsgX := by
  have h : parse_status hwX = Except.ok msgX := rfl
  rw [h]
  intro hEq
  exact absurd (Except.ok.inj hEq) (by decide)

/-- C4 (amended): `parse_status` returns exactly the name sentence
`Изменился статус проверки работы "X".` followed immediately — with no
space after the period — by the fixed table's verdict for the record's
status (`approved` / `reviewing` / `rejected`). -/
theorem C4_exact_status_texts :
    parse_status hwX = Except.ok msgX
    ∧ parse_status
        (.jdict [("homework_name", .jstr "X"), ("status", .jstr "reviewing")])
      = Except.ok
          "Изменился статус проверки работы \"X\".Работа взята на проверку ревьюером."
    ∧ parse_status
        (.jdict [("homework_name", .jstr "X"), ("status", .jstr "rejected")])
      = Except.ok
          "Изменился статус проверки работы \"X\".Работа проверена: у ревьюера есть замечания." :=
  ⟨rfl, rfl, rfl⟩

theorem exceptPure {α : Type} (a : α) :
    (pure a : Except PyError α) = Except.ok a := rfl

theorem dictHas_eq_isSome (kvs : List (String × JValue)) (k : String) :
    dictHas kvs k = (alookup kvs k).isSome := rfl

/-- On a dict, the missing-keys comprehension never raises and returns
exactly the required keys absent from the dict, in order. -/
theorem missingKeysIn_dict (kvs : List (String × JValue)) :
    missingKeysIn required_keys (.jdict kvs)
      = Except.ok (required_keys.filter (fun k => !dictHas kvs k)) := by
  cases h1 : dictHas kvs "homework_name" <;> cases h2 : dictHas kvs "status" <;>
    simp [missingKeysIn, required_keys, pyInStr, h1, h2, exceptBind_ok,
      exceptPure, List.filter]

/-- `parse_status` on a dict missing a required key: the enumerating
`KeyError`. -/
theorem parse_status_missing_keys (kvs : List (String × JValue))
    (h : required_keys.filter (fun k => !dictHas kvs k) ≠ []) :
    parse_status (.jdict kvs)
      = .error (.keyError (MISSING_HOMEWORK_KEYS
          (pyStrListStr (required_keys.filter (fun k => !dictHas kvs k))))) := by
  unfold parse_status
  rw [missingKeysIn_dict, exceptBind_ok]
  have hne : (required_keys.filter (fun k => !dictHas kvs k)).isEmpty = false := by
    cases hl : required_keys.filter (fun k => !dictHas kvs k) with
    | nil => exact absurd hl h
    | cons a l => rfl
  simp [hne]

/-- `parse_status` on a dict with both required keys and a string
status: the verdict-table lookup decides between the success text and
the `ValueError`. -/
theorem parse_status_found (kvs : List (String × JValue)) (name : JValue)
    (s : String)
    (hn : alookup kvs "homework_name" = some name)
    (hs : alookup kvs "status" = some (.jstr s)) :
    parse_status (.jdict kvs)
      = match alookup HOMEWORK_VERDICTS s with
        | some verdict => .ok (STATUS_CHANGED_MESSAGE (pyStr name) verdict)
        | none => .error (.valueError (UNKNOWN_HOMEWORK_STATUS s)) := by
  have hd1 : dictHas kvs "homework_name" = true := by
    simp [dictHas, hn]
  have hd2 : dictHas kvs "status" = true := by
    simp [dictHas, hs]
  unfold parse_status
  rw [missingKeysIn_dict, exceptBind_ok]
  simp only [required_keys, List.filter, hd1, hd2, Bool.not_true]
  simp only [List.isEmpty_nil, Bool.not_true, Bool.false_eq_true, if_false,
    ite_false]
  simp [pyGetItemStr, hn, hs, exceptBind_ok, statusInVerdicts]
  cases hv : alookup HOMEWORK_VERDICTS s <;>
    simp [hv, exceptBind_ok, exceptPure, pyStr]

/-- C5: on any homework record (a mapping), `parse_status` raises the
missing-keys `KeyError` enumerating exactly the absent required keys
when any is missing; with both keys present and a string status it
raises the `ValueError` naming the status exactly when the status is
not a verdict-table key, and succeeds with the notification text
exactly when it is. -/
theorem C5_parse_status_contract (kvs : List (String × JValue)) :
    (required_keys.filter (fun k => !dictHas kvs k) ≠ [] →
       parse_status (.jdict kvs)
         = .error (.keyError (MISSING_HOMEWORK_KEYS
             (pyStrListStr (required_keys.filter (fun k => !dictHas kvs k))))))
  ∧ (∀ name s, alookup kvs "homework_name" = some name →
       alookup kvs "status" = some (.jstr s) →
       (alookup HOMEWORK_VERDICTS s = none →
          parse_status (.jdict kvs)
            = .error (.valueError (UNKNOWN_HOMEWORK_STATUS s)))
     ∧ (∀ verdict, alookup HOMEWORK_VERDICTS s = some verdict →
          parse_status (.jdict kvs)
            = .ok (STATUS_CHANGED_MESSAGE (pyStr name) verdict))) := by
  refine ⟨parse_status_missing_keys kvs, fun name s hn hs => ⟨?_, ?_⟩⟩
  · intro hv
    rw [parse_status_found kvs name s hn hs, hv]
  · intro verdict hv
    rw [parse_status_found kvs name s hn hs, hv]

/-- C5 witness: the record lacking `homework_name` gets the enumerating
`KeyError`, by the C5 contract at a concrete record. -/
theorem C5_witness :
    parse_status (.jdict [("status", .jstr "approved")])
      = .error (.keyError (MISSING_HOMEWORK_KEYS
          (pyStrListStr ["homework_name"]))) :=
  (C5_parse_status_contract [("status", .jstr "approved")]).1 (by decide)

/-- C6: `check_response` raises the type-mismatch `TypeError` naming
the actual type on a non-dict, the `KeyError` when `homeworks` is
absent, the `TypeError` naming the actual type when its value is not a
list, and returns the homeworks list unchanged otherwise. -/
theorem C6_check_response_contract (response : JValue) :
    ((∀ kvs, response ≠ .jdict kvs) →
       check_response response
         = .error (.typeError (INVALID_API_RESPONSE_TYPE (pyType response))))
  ∧ (∀ kvs, response = .jdict kvs →
       (alookup kvs "homeworks" = none →
          check_response response = .error (.keyError MISSING_HOMEWORKS_KEY))
     ∧ (∀ xs, alookup kvs "homeworks" = some (.jlist xs) →
          check_response response = .ok xs)
     ∧ (∀ hv, alookup kvs "homeworks" = some hv → (∀ xs, hv ≠ .jlist xs) →
          check_response response
            = .error (.typeError (INVALID_HOMEWORKS_TYPE (pyType hv))))) := by
  constructor
  · intro hnd
    cases response with
    | jdict kvs => exact absurd rfl (hnd kvs)
    | jnull => rfl
    | jbool b => rfl
    | jnum n => rfl
    | jstr s => rfl
    | jlist xs => rfl
  · rintro kvs rfl
    refine ⟨fun hno => ?_, fun xs hxs => ?_, fun hv hsome hnl => ?_⟩
    · simp [check_response, hno]
    · simp [check_response, hxs]
    · cases hv with
      | jlist xs => exact absurd rfl (hnl xs)
      | jnull => simp [check_response, hsome]
      | jbool b => simp [check_response, hsome]
      | jnum n => simp [check_response, hsome]
      | jstr s => simp [check_response, hsome]
      | jdict kvs2 => simp [check_response, hsome]

/-- C6 witness: a response without the `homeworks` key gets the shape
`KeyError`, by the C6 contract at a concrete response. -/
theorem C6_witness :
    check_response (.jdict [("current_date", .jnum 1)])
      = .error (.keyError MISSING_HOMEWORKS_KEY) :=
  (((C6_check_response_contract
      (.jdict [("current_date", .jnum 1)])).2
      [("current_date", .jnum 1)] rfl).1 rfl)

/-- `get_api_answer` on a 200 response whose body has an `error` key:
the API-reported-error condition under key `error` (whether or not a
`code` key is also present). -/
theorem get_api_answer_error_field (tok : Option String) (ts : JValue)
    (kvs : List (String × JValue)) (v : JValue)
    (he : alookup kvs "error" = some v) :
    get_api_answer tok ts (.httpResponse 200 (.jdict kvs))
      = .error (.httpRequestError (API_RESPONSE_ERROR (pyStr v) "error")) := by
  have hhe : dictHas kvs "error" = true := by simp [dictHas, he]
  unfold get_api_answer
  cases hc : dictHas kvs "code" <;>
    simp [pyInStr, hc, hhe, exceptBind_ok, exceptPure, pyGetItemStr, he]

/-- `get_api_answer` on a 200 response whose body has a `code` key but
no `error` key: the API-reported-error condition under key `code`. -/
theorem get_api_answer_code_field (tok : Option String) (ts : JValue)
    (kvs : List (String × JValue)) (w : JValue)
    (hne : alookup kvs "error" = none)
    (hc : alookup kvs "code" = some w) :
    get_api_answer tok ts (.httpResponse 200 (.jdict kvs))
      = .error (.httpRequestError (API_RESPONSE_ERROR (pyStr w) "code")) := by
  have hhe : dictHas kvs "error" = false := by simp [dictHas, hne]
  have hhc : dictHas kvs "code" = true := by simp [dictHas, hc]
  unfold get_api_answer
  simp [pyInStr, hhc, hhe, exceptBind_ok, exceptPure, pyGetItemStr, hc]

/-- `get_api_answer` on a 200 response whose body has neither key:
the decoded body is returned. -/
theorem get_api_answer_clean (tok : Option String) (ts : JValue)
    (kvs : List (String × JValue))
    (hne : alookup kvs "error" = none)
    (hnc : alookup kvs "code" = none) :
    get_api_answer tok ts (.httpResponse 200 (.jdict kvs))
      = .ok (.jdict kvs) := by
  have hhe : dictHas kvs "error" = false := by simp [dictHas, hne]
  have hhc : dictHas kvs "code" = false := by simp [dictHas, hnc]
  unfold get_api_answer
  simp [pyInStr, hhc, hhe, exceptBind_ok, exceptPure]

/-- C7: the fetch's full outcome taxonomy — transport failure becomes
the request-failed `RuntimeError` carrying cause, URL, headers and
params; a non-200 status becomes the bad-status `HTTPRequestError`
carrying the status code and request context; a decoded mapping with an
`error` (resp. only a `code`) field becomes the API-reported-error
`HTTPRequestError` carrying the payload; a mapping with neither field
is returned unchanged. -/
theorem C7_get_api_answer_contract (tok : Option String) (ts : JValue) :
    (∀ e, get_api_answer tok ts (.transportError e)
        = .error (.runtimeError (REQUEST_ERROR e ENDPOINT
            (pyStr (HEADERS tok)) (pyStr (.jdict [("from_date", ts)])))))
  ∧ (∀ sc body, sc ≠ 200 → get_api_answer tok ts (.httpResponse sc body)
        = .error (.httpRequestError (RESPONSE_STATUS_ERROR (toString sc)
            ENDPOINT (pyStr (HEADERS tok))
            (pyStr (.jdict [("from_date", ts)])))))
  ∧ (∀ kvs v, alookup kvs "error" = some v →
        get_api_answer tok ts (.httpResponse 200 (.jdict kvs))
          = .error (.httpRequestError (API_RESPONSE_ERROR (pyStr v) "error")))
  ∧ (∀ kvs w, alookup kvs "error" = none → alookup kvs "code" = some w →
        get_api_answer tok ts (.httpResponse 200 (.jdict kvs))
          = .error (.httpRequestError (API_RESPONSE_ERROR (pyStr w) "code")))
  ∧ (∀ kvs, alookup kvs "error" = none → alookup kvs "code" = none →
        get_api_answer tok ts (.httpResponse 200 (.jdict kvs))
          = .ok (.jdict kvs)) := by
  refine ⟨fun e => rfl, fun sc body hsc => ?_,
    fun kvs v he => get_api_answer_error_field tok ts kvs v he,
    fun kvs w hne hc => get_api_answer_code_field tok ts kvs w hne hc,
    fun kvs hne hnc => get_api_answer_clean tok ts kvs hne hnc⟩
  unfold get_api_answer
  simp [hsc]

/-- C7 witness: a 404 response under the C7 contract at concrete
inputs, the non-200 hypothesis discharged by computation. -/
theorem C7_witness :
    get_api_answer (some "P") (.jnum 0) (.httpResponse 404 (.jdict []))
      = .error (.httpRequestError (RESPONSE_STATUS_ERROR (toString 404)
          ENDPOINT (pyStr (HEADERS (some "P")))
          (pyStr (.jdict [("from_date", .jnum 0)])))) :=
  (C7_get_api_answer_contract (some "P") (.jnum 0)).2.1 404 (.jdict [])
    (by decide)

/-- C10: when the decoded 200 body has both an `error` and a `code`
field, the API-reported-error condition is raised under the `error`
key with the `error` payload — `error` takes precedence over `code`. -/
theorem C10_error_precedes_code (tok : Option String) (ts : JValue)
    (kvs : List (String × JValue)) (v w : JValue)
    (he : alookup kvs "error" = some v)
    (_hc : alookup kvs "code" = some w) :
    get_api_answer tok ts (.httpResponse 200 (.jdict kvs))
      = .error (.httpRequestError (API_RESPONSE_ERROR (pyStr v) "error")) :=
  get_api_answer_error_field tok ts kvs v he

/-- C10 witness: both fields present at concrete inputs; the `error`
payload is reported. -/
theorem C10_witness :
    get_api_answer (some "P") (.jnum 0) (.httpResponse 200
        (.jdict [("error", .jstr "E"), ("code", .jstr "C")]))
      = .error (.httpRequestError (API_RESPONSE_ERROR "E" "error")) :=
  C10_error_precedes_code (some "P") (.jnum 0)
    [("error", .jstr "E"), ("code", .jstr "C")] (.jstr "E") (.jstr "C") rfl rfl

/-- C8: `check_tokens` succeeds exactly when no secret is missing or
empty; the reported list contains exactly the missing/empty secrets
(order-independently); `main` aborts before the loop exactly when
`check_tokens` fails, and enters the loop with cursor `now` otherwise;
the critical diagnostic names the missing set. -/
theorem C8_check_tokens_contract (env : Env) :
    (check_tokens env = true ↔ missing_tokens env = [])
  ∧ (∀ name, name ∈ missing_tokens env ↔
       name ∈ TOKEN_NAMES ∧ tokenPresent (envGet env name) = false)
  ∧ (∀ now, main_start env now = none ↔ check_tokens env = false)
  ∧ (∀ now, check_tokens env = true →
       main_start env now
         = some { timestamp := .jnum now, last_error_message := none })
  ∧ (check_tokens env = false →
       check_tokens_report env
         = some (MISSING_ENV_VARS (pyStrListStr (missing_tokens env)))) := by
  refine ⟨isEmpty_eq_nil _, fun name => ?_, fun now => ?_, fun now h => ?_,
    fun h => ?_⟩
  · simp [missing_tokens, List.mem_filter]
  · cases hb : check_tokens env <;> simp [main_start, hb]
  · simp [main_start, h]
  · have : (missing_tokens env).isEmpty = false := h
    simp [check_tokens_report, this]

/-- C8 witness: with `PRACTICUM_TOKEN` absent and `TELEGRAM_TOKEN`
empty, startup is aborted and the report names that pair, by the C8
contract at a concrete environment. -/
theorem C8_witness :
    check_tokens_report
        { PRACTICUM_TOKEN := none, TELEGRAM_TOKEN := some "",
          TELEGRAM_CHAT_ID := some "C" }
      = some (MISSING_ENV_VARS (pyStrListStr
          (missing_tokens
            { PRACTICUM_TOKEN := none, TELEGRAM_TOKEN := some "",
              TELEGRAM_CHAT_ID := some "C" }))) :=
  (C8_check_tokens_contract
      { PRACTICUM_TOKEN := none, TELEGRAM_TOKEN := some "",
        TELEGRAM_CHAT_ID := some "C" }).2.2.2.2 (by decide)

/-- `notifyStep` depends only on the record it is given (never on the
rest of the response): since `send_message` returns `None`, the cursor
branch is unreachable and the result is determined by `parse_status` of
that one record and the delivery outcome. -/
theorem notifyStep_eq (st : LoopState) (d : Option String)
    (resp hw : JValue) :
    notifyStep st d resp hw
      = (parse_status hw).bind (fun message => Except.ok
          { state := st, sent := [message],
            delivered := if (send_message d message).delivered
                         then [message] else [] }) := by
  unfold notifyStep
  cases hp : parse_status hw with
  | error e => rfl
  | ok message =>
      cases d <;>
        simp [exceptBind_ok, Except.bind, send_message, pyTruthy, exceptPure]

/-- The `except` handler passes at most one message to `send_message`. -/
theorem errorStep_sent_le (st : LoopState) (d : Option String)
    (e : PyError) : (errorStep st d e).sent.length ≤ 1 := by
  unfold errorStep
  by_cases h : some (PROGRAM_FAILURE (pyErrStr e)) ≠ st.last_error_message
  · cases d <;> simp [h, send_message, pyTruthy]
  · simp [h]

/-- `iterTry` written as an explicit `Except.bind` chain. -/
theorem iterTry_eq (env : Env) (st : LoopState) (inp : IterInput) :
    iterTry env st inp
      = (get_api_answer env.PRACTICUM_TOKEN st.timestamp inp.fetch).bind
          (fun response => (check_response response).bind
            (fun homeworks =>
              match homeworks with
              | hw :: _ => notifyStep st inp.delivery response hw
              | [] => Except.ok { state := st, sent := [], delivered := [] })) :=
  rfl

/-- Any single iteration hands at most one message to `send_message`. -/
theorem mainIter_sent_le (env : Env) (st : LoopState) (inp : IterInput) :
    (mainIter env st inp).sent.length ≤ 1 := by
  unfold mainIter
  rw [iterTry_eq]
  cases hg : get_api_answer env.PRACTICUM_TOKEN st.timestamp inp.fetch with
  | error e =>
      simp only [Except.bind]
      exact errorStep_sent_le st inp.delivery e
  | ok response =>
    simp only [Except.bind]
    cases hc : check_response response with
    | error e =>
        simp only [Except.bind]
        exact errorStep_sent_le st inp.delivery e
    | ok homeworks =>
      simp only [Except.bind]
      cases homeworks with
      | nil => simp
      | cons hw rest =>
        dsimp only
        rw [notifyStep_eq]
        cases hp : parse_status hw with
        | error e =>
            simp only [Except.bind]
            exact errorStep_sent_le st inp.delivery e
        | ok message => simp [Except.bind]

/-- An iteration whose 200 response lists several homeworks behaves
identically whatever follows the first record. -/
theorem mainIter_tail_irrelevant (env : Env) (st : LoopState)
    (delivery : Option String) (hw : JValue) (rest rest2 : List JValue)
    (d : JValue) :
    mainIter env st (tailInp delivery hw rest d)
      = mainIter env st (tailInp delivery hw rest2 d) := by
  unfold mainIter tailInp
  rw [iterTry_eq, iterTry_eq]
  dsimp only
  unfold respTail
  rw [get_api_answer_clean env.PRACTICUM_TOKEN st.timestamp
      [("homeworks", .jlist (hw :: rest)), ("current_date", d)] rfl rfl,
    get_api_answer_clean env.PRACTICUM_TOKEN st.timestamp
      [("homeworks", .jlist (hw :: rest2)), ("current_date", d)] rfl rfl]
  simp only [Except.bind]
  rw [show check_response (JValue.jdict
        [("homeworks", .jlist (hw :: rest)), ("current_date", d)])
      = Except.ok (hw :: rest) from rfl,
    show check_response (JValue.jdict
        [("homeworks", .jlist (hw :: rest2)), ("current_date", d)])
      = Except.ok (hw :: rest2) from rfl]
  simp only [Except.bind]
  rw [notifyStep_eq, notifyStep_eq]

/-- C9: every iteration produces at most one notification, and an
iteration whose non-empty homeworks list starts with a given record is
entirely unaffected by the records after the first — they are never
interpreted or notified about. -/
theorem C9_only_first_record (env : Env) (st : LoopState) :
    (∀ inp, (mainIter env st inp).sent.length ≤ 1)
  ∧ (∀ delivery hw rest rest2 d,
      mainIter env st (tailInp delivery hw rest d)
        = mainIter env st (tailInp delivery hw rest2 d)) :=
  ⟨fun inp => mainIter_sent_le env st inp,
   fun delivery hw rest rest2 d =>
     mainIter_tail_irrelevant env st delivery hw rest rest2 d⟩

end HomeworkBot
